import Mathlib

/-!
Verification of the ilustreous/ipython repository slice: the zmq parallel
controller factory (`IPython/zmq/parallel/controller.py`), the client-side
views (`IPython/zmq/parallel/view.py`), and `IPython/core/macro.py`.

Python 2 semantics are embedded shallowly: exceptions become `Except` or an
`Option PyErr` component, mutation becomes explicit state passing, Python
lists become `List`, and Python string/`isinstance` behaviour is modelled
faithfully (including the lazy left-to-right scan of a class tuple).
-/

/-- The Python exception kinds raised by the embedded code. -/
inductive PyErr where
  | runtimeError (msg : String)
  | typeError (msg : String)
  | valueError (msg : String)
  | attributeError (msg : String)
  deriving DecidableEq, Repr

/-! ## IPython/core/macro.py -/

/-- The whitespace characters stripped by Python 2 `str.rstrip()`. -/
def pySpace (c : Char) : Bool :=
  c = ' ' || c = '\t' || c = '\n' || c = '\x0b' || c = '\x0c' || c = '\r'

/-- Python `code.rstrip()`: remove trailing whitespace characters. -/
def pyRstrip (s : String) : String :=
  String.mk ((s.data.reverse.dropWhile pySpace).reverse)

/-- `Macro.__init__`: `self.value = code.rstrip() + chr(10)` (macro.py line 23). -/
def macroValue (code : String) : String :=
  pyRstrip code ++ "\n"

/-- `Macro.__str__`: returns `self.value` (macro.py line 26). -/
def macroStr (code : String) : String :=
  macroValue code

theorem dropWhile_dropWhile_eq {α : Type} (p : α → Bool) (l : List α) :
    (l.dropWhile p).dropWhile p = l.dropWhile p := by
  induction l with
  | nil => rfl
  | cons a t ih =>
      by_cases h : p a
      · simpa [List.dropWhile, h] using ih
      · simp [List.dropWhile, h]

theorem head_dropWhile_notP {α : Type} (p : α → Bool) (l : List α) :
    ∀ c, (l.dropWhile p).head? = some c → p c = false := by
  induction l with
  | nil => intro c h; simp [List.dropWhile] at h
  | cons a t ih =>
      intro c h
      by_cases hp : p a
      · exact ih c (by simpa [List.dropWhile, hp] using h)
      · simp [List.dropWhile, hp] at h
        subst h
        simpa using hp

theorem pyRstrip_append_newline (s : String) :
    pyRstrip (s ++ "\n") = pyRstrip s := by
  obtain ⟨l⟩ := s
  show String.mk (((l ++ ['\n']).reverse.dropWhile pySpace).reverse)
      = String.mk ((l.reverse.dropWhile pySpace).reverse)
  rw [List.reverse_append]
  rfl

theorem pyRstrip_idem (s : String) :
    pyRstrip (pyRstrip s) = pyRstrip s := by
  obtain ⟨l⟩ := s
  show String.mk ((((l.reverse.dropWhile pySpace).reverse).reverse.dropWhile pySpace).reverse) = _
  rw [List.reverse_reverse, dropWhile_dropWhile_eq]
  rfl

/-- C10: for every input string code, `Macro(code).value` equals
`code.rstrip()` followed by a single newline (so it ends in exactly one
newline, with no trailing whitespace character before it), `str` of the macro
returns that value, and construction is idempotent:
`Macro(Macro(code).value).value = Macro(code).value`. -/
theorem c10_macro_value_spec (code : String) :
    macroValue code = pyRstrip code ++ "\n"
    ∧ macroStr code = macroValue code
    ∧ macroValue (macroValue code) = macroValue code
    ∧ (∀ c, (pyRstrip code).data.getLast? = some c → pySpace c = false) := by
  refine ⟨rfl, rfl, ?_, ?_⟩
  · show pyRstrip (pyRstrip code ++ "\n") ++ "\n" = pyRstrip code ++ "\n"
    rw [pyRstrip_append_newline, pyRstrip_idem]
  · intro c hc
    have h : ((code.data.reverse.dropWhile pySpace).reverse).getLast? = some c := hc
    rw [List.getLast?_reverse] at h
    exact head_dropWhile_notP pySpace code.data.reverse c h

theorem c10_macro_value_spec_witness :
    macroValue (macroValue "ab \t") = macroValue "ab \t" ∧ pySpace 'b' = false :=
  ⟨(c10_macro_value_spec "ab \t").2.2.1,
   (c10_macro_value_spec "ab \t").2.2.2 'b' (by decide)⟩

/-! ## IPython/zmq/parallel/view.py -/

/-- A `follow`/`after` value as held or received by `LoadBalancedView`:
Python `None`, or a dependency carried as its list of msg ids (a
`Dependency`, `AsyncResult` or plain collection each reduce to such a
list). -/
inductive DepArg where
  | pynone
  | ids (l : List String)
  deriving DecidableEq, Repr

/-- Python truthiness of a dependency value: `None` is falsy, a collection is
truthy iff it is non-empty. -/
def DepArg.truthy : DepArg → Bool
  | DepArg.pynone => false
  | DepArg.ids l => !l.isEmpty

/-- `LoadBalancedView._render_dependency` (view.py lines 692-702): `None`
becomes the empty list, everything else its list of msg ids. -/
def render_dependency : DepArg → List String
  | DepArg.pynone => []
  | DepArg.ids l => l

/-- A Python value passed as the `timeout` flag. Float values are carried as
rationals; the only float operation the code performs is a sign comparison
against 0, which is exact for IEEE floats. -/
inductive PyTimeout where
  | int (n : Int)
  | long (n : Int)
  | float (x : Rat)
  | pynone
  | str (s : String)
  deriving DecidableEq, Repr

/-- Numeric value of a timeout (only ever used on int/long/float). -/
def PyTimeout.toRat : PyTimeout → Rat
  | PyTimeout.int n => n
  | PyTimeout.long n => n
  | PyTimeout.float x => x
  | _ => 0

/-- The attributes of a `LoadBalancedView` touched by the embedded methods
(view.py lines 96-107, 658-666). `task_scheme` embeds `_task_scheme` and
`idents` embeds `_idents`; defaults are the values a fresh view holds. -/
structure LoadBalancedView where
  block : Bool := false
  track : Bool := false
  after : DepArg := DepArg.pynone
  follow : DepArg := DepArg.pynone
  timeout : PyTimeout := PyTimeout.pynone
  task_scheme : String := "pure"
  idents : List String := []
  deriving DecidableEq, Repr

/-- The subheader of the task message built and sent by
`LoadBalancedView.apply_with_flags` (view.py line 820). -/
structure TaskMsg where
  after : List String
  follow : List String
  timeout : PyTimeout
  targets : List String
  deriving DecidableEq, Repr

/-- `LoadBalancedView.apply_with_flags` (view.py lines 759-833): the closed
socket check, the pure-scheme dependency check on the follow/after values
passed to the call, then the defaulting of each flag from the view attribute
when the argument is `None`, dependency rendering, and the send. `Except.ok`
carries the subheader of the dispatched message. -/
def LoadBalancedView.apply_with_flags (v : LoadBalancedView) (socketClosed : Bool)
    (afterArg followArg : DepArg) (timeoutArg : PyTimeout) : Except PyErr TaskMsg :=
  if socketClosed then
    Except.error (PyErr.runtimeError "Task farming is disabled")
  else if v.task_scheme = "pure" ∧ (followArg.truthy || afterArg.truthy) = true then
    Except.error (PyErr.runtimeError "Pure ZMQ scheduler does not support dependencies")
  else
    let afterD := if afterArg = DepArg.pynone then v.after else afterArg
    let followD := if followArg = DepArg.pynone then v.follow else followArg
    let timeoutD := if timeoutArg = PyTimeout.pynone then v.timeout else timeoutArg
    Except.ok { after := render_dependency afterD, follow := render_dependency followD,
                timeout := timeoutD, targets := v.idents }

/-- Whether an `apply_with_flags` outcome is a raised `RuntimeError`. -/
def isRuntimeErr : Except PyErr TaskMsg → Bool
  | Except.error (PyErr.runtimeError _) => true
  | _ => false

/-- A pure-scheme view whose `after` attribute holds the non-empty dependency
["x"] (as `set_flags(after=["x"])` leaves it). -/
def pureViewWithAfter : LoadBalancedView :=
  { task_scheme := "pure", after := DepArg.ids ["x"] }

/-- C1 counterexample: on a pure-scheme view whose effective `after`
dependency is the non-empty ["x"] (taken from the view attribute because the
call passes `after=None`), `apply_with_flags` does not raise: it dispatches a
task message whose subheader carries `after = ["x"]`, falsifying the claim
that a non-empty effective dependency raises RuntimeError with no dispatch. -/
theorem c1_pure_dependency_counterexample :
    pureViewWithAfter.apply_with_flags false DepArg.pynone DepArg.pynone PyTimeout.pynone
      = Except.ok { after := ["x"], follow := [], timeout := PyTimeout.pynone, targets := [] }
    ∧ DepArg.truthy pureViewWithAfter.after = true := by
  exact ⟨rfl, rfl⟩

/-- C1 (amended): when the task scheme is `pure`, a call to
`LoadBalancedView.apply_with_flags` whose explicitly passed `follow` or
`after` argument is truthy (non-empty) raises RuntimeError before any message
is sent, so no engine dispatch occurs for that call; dependencies taken only
from the view attributes by the later defaulting do not trigger this check. -/
theorem c1_pure_dependency_amended (v : LoadBalancedView) (socketClosed : Bool)
    (afterArg followArg : DepArg) (timeoutArg : PyTimeout)
    (hscheme : v.task_scheme = "pure")
    (hdep : (followArg.truthy || afterArg.truthy) = true) :
    isRuntimeErr (v.apply_with_flags socketClosed afterArg followArg timeoutArg) = true := by
  cases socketClosed with
  | true => rfl
  | false =>
      have : v.apply_with_flags false afterArg followArg timeoutArg
          = Except.error (PyErr.runtimeError "Pure ZMQ scheduler does not support dependencies") := by
        simp [LoadBalancedView.apply_with_flags, hscheme, hdep]
      rw [this]
      rfl

theorem c1_pure_dependency_amended_witness :
    isRuntimeErr (LoadBalancedView.apply_with_flags {} false (DepArg.ids ["x"]) DepArg.pynone
      PyTimeout.pynone) = true :=
  c1_pure_dependency_amended {} false (DepArg.ids ["x"]) DepArg.pynone PyTimeout.pynone
    rfl (by decide)

/-- Python list slice `l[-n:]` for a natural `n`. Because `-0 == 0`, the case
`n = 0` yields the whole list, not the empty one. -/
def negTailSlice (l : List String) (n : Nat) : List String :=
  if n = 0 then l else l.drop (l.length - n)

/-- The `save_ids` decorator (view.py lines 32-43): it records
`n_previous = len(self.client.history)`, runs the wrapped call (which appends
`callAppends` to the client history and either returns or raises), and in the
`finally` block computes `nmsgs = len(self.client.history) - n_previous` and
`msg_ids = self.client.history[-nmsgs:]`, extends the view history with
`msg_ids` and adds each of them to the outstanding set. The result is
(new view history, new outstanding, whether the call raised). -/
def save_ids_run (clientHistPrev callAppends viewHist outst : List String)
    (callRaises : Bool) : List String × List String × Bool :=
  let hist := clientHistPrev ++ callAppends
  let nmsgs := hist.length - clientHistPrev.length
  let msg_ids := negTailSlice hist nmsgs
  (viewHist ++ msg_ids, outst ++ msg_ids, callRaises)

/-- When the wrapped call appended at least one message id, the slice
`history[-nmsgs:]` is exactly the newly appended ids, so the bookkeeping
matches the intent, raise or no raise. -/
theorem negTailSlice_append (a b : List String) (hb : b ≠ []) :
    negTailSlice (a ++ b) ((a ++ b).length - a.length) = b := by
  have hlen : b.length ≠ 0 := fun h0 => hb (List.length_eq_zero.mp h0)
  have h1 : (a ++ b).length - a.length = b.length := by
    rw [List.length_append]
    omega
  rw [h1]
  unfold negTailSlice
  rw [if_neg hlen]
  have h2 : (a ++ b).length - b.length = a.length := by
    rw [List.length_append]
    omega
  rw [h2, List.drop_left]

theorem save_ids_run_nonempty (clientHistPrev callAppends viewHist outst : List String)
    (callRaises : Bool) (h : callAppends ≠ []) :
    save_ids_run clientHistPrev callAppends viewHist outst callRaises
      = (viewHist ++ callAppends, outst ++ callAppends, callRaises) := by
  show (viewHist ++ negTailSlice (clientHistPrev ++ callAppends)
          ((clientHistPrev ++ callAppends).length - clientHistPrev.length),
        outst ++ negTailSlice (clientHistPrev ++ callAppends)
          ((clientHistPrev ++ callAppends).length - clientHistPrev.length),
        callRaises)
      = (viewHist ++ callAppends, outst ++ callAppends, callRaises)
  rw [negTailSlice_append _ _ h]

/-- C5: at the failing input the claim is violated: the client history already
holds ["a"] from an earlier call, and the wrapped call appends nothing before
raising (for example `LoadBalancedView.apply_with_flags` raising RuntimeError
under the pure scheme before any send). Then `nmsgs = 0` and
`history[-0:]` is the whole client history, so the already-submitted id "a"
is appended to the view history and to its outstanding set even though no new
message id exists. The second conjunct shows the ordinary one-new-message
case behaving as the claim states. -/
theorem c5_save_ids_zero_msgs_bug :
    save_ids_run ["a"] [] [] [] true = (["a"], ["a"], true)
    ∧ save_ids_run ["a"] ["b"] [] [] false = (["b"], ["b"], false) := by
  exact ⟨rfl, rfl⟩

/-- Python 2 evaluation of `isinstance(t, (int, long, float, None))`
(view.py line 750): the class tuple is scanned left to right, so if `t` is an
int, long or float the scan stops with True; any other value makes the scan
reach the entry `None`, which is not a class, and `isinstance` itself raises
TypeError. -/
def isinstance_int_long_float_noneEntry : PyTimeout → Except PyErr Bool
  | PyTimeout.int _ => Except.ok true
  | PyTimeout.long _ => Except.ok true
  | PyTimeout.float _ => Except.ok true
  | _ => Except.error
      (PyErr.typeError "isinstance() arg 2 must be a class, type, or tuple of classes and types")

/-- `LoadBalancedView.set_flags` called with the single keyword `timeout=t`
(view.py lines 704-755). `View.set_flags` runs first and, since `timeout` is
in `_flag_names`, does `setattr(self, 'timeout', t)`; the follow/after loop
sees no such keyword; then the timeout validation of lines 748-755 runs. The
result is the view (keeping the mutation made before any raise) paired with
the exception raised, if any. -/
def LoadBalancedView.set_flags_timeout (v : LoadBalancedView) (t : PyTimeout) :
    LoadBalancedView × Option PyErr :=
  let v1 := { v with timeout := t }
  match isinstance_int_long_float_noneEntry t with
  | Except.error e => (v1, some e)
  | Except.ok isNum =>
    if !isNum then (v1, some (PyErr.typeError "Invalid type for timeout"))
    else if t ≠ PyTimeout.pynone ∧ t.toRat < 0 then
      (v1, some (PyErr.valueError "Invalid timeout"))
    else (v1, none)

/-- C8: the claim fails on the code at `timeout=None`. The docstring declares
timeout as float/int or None, but line 750 writes the class tuple as
`(int, long, float, None)` and `None` is not a type, so
`set_flags(timeout=None)` raises TypeError out of `isinstance` itself instead
of accepting the valid value. Negative numerics still raise ValueError and
genuinely invalid types still raise TypeError, and a valid positive value is
stored with no other flag changed. -/
theorem c8_set_flags_timeout_none_bug :
    (LoadBalancedView.set_flags_timeout {} PyTimeout.pynone).2
        = some (PyErr.typeError
            "isinstance() arg 2 must be a class, type, or tuple of classes and types")
    ∧ (LoadBalancedView.set_flags_timeout {} (PyTimeout.int (-1))).2
        = some (PyErr.valueError "Invalid timeout")
    ∧ (LoadBalancedView.set_flags_timeout {} (PyTimeout.str "x")).2
        = some (PyErr.typeError
            "isinstance() arg 2 must be a class, type, or tuple of classes and types")
    ∧ LoadBalancedView.set_flags_timeout {} (PyTimeout.int 5)
        = ({ timeout := PyTimeout.int 5 }, none) := by
  refine ⟨rfl, ?_, rfl, ?_⟩
  · decide
  · decide

/-- The base `View` state relevant to the `targets` property; the `_targets`
trait is declared `Any()`, so the embedding is polymorphic in its type
(view.py lines 96-136). -/
structure View (α : Type) where
  history : List String := []
  outstanding : List String := []
  targetsVal : α

/-- The `View.targets` property getter (view.py lines 130-132): returns
`self._targets`. -/
def View.targets {α : Type} (v : View α) : α :=
  v.targetsVal

/-- The `View.targets` property setter (view.py lines 134-136): it
unconditionally raises AttributeError, producing no new view state. -/
def View.targets_setter {α : Type} (v : View α) (value : α) : Except PyErr (View α) :=
  Except.error (PyErr.attributeError "Cannot set View targets after construction!")

/-- C9: for every View, assigning to `view.targets` raises AttributeError and
never yields an updated view, so `_targets` is unchanged, while reading
`view.targets` always returns `_targets`. -/
theorem c9_targets_immutable {α : Type} (v : View α) (value : α) :
    View.targets_setter v value
        = Except.error (PyErr.attributeError "Cannot set View targets after construction!")
    ∧ (∀ w : View α, View.targets_setter v value ≠ Except.ok w)
    ∧ View.targets v = v.targetsVal := by
  refine ⟨rfl, ?_, rfl⟩
  intro w h
  simp [View.targets_setter] at h

theorem c9_targets_immutable_witness :
    View.targets_setter (⟨[], [], (42 : Nat)⟩ : View Nat) 7
        = Except.error (PyErr.attributeError "Cannot set View targets after construction!")
    ∧ View.targets (⟨[], [], (42 : Nat)⟩ : View Nat) = 42 :=
  ⟨(c9_targets_immutable (⟨[], [], (42 : Nat)⟩ : View Nat) 7).1,
   (c9_targets_immutable (⟨[], [], (42 : Nat)⟩ : View Nat) 7).2.2⟩

/-! ## IPython/zmq/parallel/controller.py -/

/-- zmq socket types used by the controller factory. -/
inductive SockType where
  | PUB
  | SUB
  | XREP
  | XREQ
  deriving DecidableEq, Repr

/-- A child worker appended to `ControllerFactory.children`: a monitored
queue device of the configured `mq_class` (arguments: in-socket type,
out-socket type, monitor-socket type, in-channel tag, out-channel tag), or a
`multiprocessing.Process` running `launch_scheduler` with a scheme
(controller.py lines 115-160). -/
inductive Child where
  | monitoredQueue (mqClass : String) (inType outType monType : SockType)
      (inTag outTag : String)
  | schedulerProcess (scheme : String)
  deriving DecidableEq, Repr

/-- The configurable state of `ControllerFactory` (controller.py lines
88-105): `scheme` defaults to "pure", `usethreads` to False, and `mq_class`
to "zmq.devices.ProcessMonitoredQueue". -/
structure ControllerFactory where
  scheme : String := "pure"
  usethreads : Bool := false
  mq_class : String := "zmq.devices.ProcessMonitoredQueue"
  deriving DecidableEq, Repr

/-- `ControllerFactory._update_mq` (controller.py lines 98-99): recomputes
`mq_class` from `usethreads`. -/
def ControllerFactory.update_mq (f : ControllerFactory) : ControllerFactory :=
  { f with mq_class :=
      "zmq.devices." ++ (if f.usethreads then "Thread" else "Process") ++ "MonitoredQueue" }

/-- `ControllerFactory.construct_schedulers` (controller.py lines 115-160):
always appends the IOPub relay, the MUX queue and the Control queue; then,
for the task channel, scheme "pure" appends a monitored XREP/XREQ forwarder
queue, scheme "none" appends no task worker at all, and any other scheme
appends a Process running `launch_scheduler` with that scheme. -/
def ControllerFactory.construct_schedulers (f : ControllerFactory) : List Child :=
  [Child.monitoredQueue f.mq_class SockType.PUB SockType.SUB SockType.PUB "N/A" "iopub",
   Child.monitoredQueue f.mq_class SockType.XREP SockType.XREP SockType.PUB "in" "out",
   Child.monitoredQueue f.mq_class SockType.XREP SockType.XREP SockType.PUB
     "incontrol" "outcontrol"]
  ++ (if f.scheme = "pure" then
        [Child.monitoredQueue f.mq_class SockType.XREP SockType.XREQ SockType.PUB
          "intask" "outtask"]
      else if f.scheme = "none" then []
      else [Child.schedulerProcess f.scheme])

/-- The three queue children every scheme gets: IOPub relay, MUX queue,
Control queue. -/
def ControllerFactory.baseQueues (f : ControllerFactory) : List Child :=
  [Child.monitoredQueue f.mq_class SockType.PUB SockType.SUB SockType.PUB "N/A" "iopub",
   Child.monitoredQueue f.mq_class SockType.XREP SockType.XREP SockType.PUB "in" "out",
   Child.monitoredQueue f.mq_class SockType.XREP SockType.XREP SockType.PUB
     "incontrol" "outcontrol"]

/-- The recognized Python task scheduler schemes other than "pure" and
"none" (controller.py lines 78-80 list them as --scheduler choices). -/
def pythonSchemes : List String := ["lru", "plainrandom", "weighted", "twobin", "leastload"]

theorem construct_schedulers_python_scheme (f : ControllerFactory)
    (h : f.scheme ∈ pythonSchemes) :
    f.construct_schedulers = f.baseQueues ++ [Child.schedulerProcess f.scheme] := by
  have h1 : f.scheme ≠ "pure" := by
    simp only [pythonSchemes, List.mem_cons, List.not_mem_nil, or_false] at h
    rcases h with h | h | h | h | h <;> simp [h]
  have h2 : f.scheme ≠ "none" := by
    simp only [pythonSchemes, List.mem_cons, List.not_mem_nil, or_false] at h
    rcases h with h | h | h | h | h <;> simp [h]
  simp [ControllerFactory.construct_schedulers, ControllerFactory.baseQueues, h1, h2]

/-- C4: `construct_schedulers` wires the task channel according to the
configured scheme: "pure" creates a monitored XREP/XREQ forwarder queue,
"none" creates no task worker at all, and each recognized Python scheme
(lru, plainrandom, weighted, twobin, leastload) spawns a separate Process
running `launch_scheduler` with that scheme. -/
theorem c4_construct_schedulers_wiring (f : ControllerFactory) :
    (f.scheme = "pure" → f.construct_schedulers
        = f.baseQueues ++ [Child.monitoredQueue f.mq_class SockType.XREP SockType.XREQ
            SockType.PUB "intask" "outtask"])
    ∧ (f.scheme = "none" → f.construct_schedulers = f.baseQueues)
    ∧ (f.scheme ∈ pythonSchemes → f.construct_schedulers
        = f.baseQueues ++ [Child.schedulerProcess f.scheme]) := by
  refine ⟨?_, ?_, construct_schedulers_python_scheme f⟩
  · intro h
    simp [ControllerFactory.construct_schedulers, ControllerFactory.baseQueues, h]
  · intro h
    simp [ControllerFactory.construct_schedulers, ControllerFactory.baseQueues, h]

theorem c4_construct_schedulers_wiring_witness :
    ({ scheme := "pure" } : ControllerFactory).construct_schedulers
        = ({ scheme := "pure" } : ControllerFactory).baseQueues
          ++ [Child.monitoredQueue "zmq.devices.ProcessMonitoredQueue" SockType.XREP
              SockType.XREQ SockType.PUB "intask" "outtask"]
    ∧ ({ scheme := "none" } : ControllerFactory).construct_schedulers
        = ({ scheme := "none" } : ControllerFactory).baseQueues
    ∧ ({ scheme := "lru" } : ControllerFactory).construct_schedulers
        = ({ scheme := "lru" } : ControllerFactory).baseQueues
          ++ [Child.schedulerProcess "lru"] :=
  ⟨(c4_construct_schedulers_wiring { scheme := "pure" }).1 rfl,
   (c4_construct_schedulers_wiring { scheme := "none" }).2.1 rfl,
   (c4_construct_schedulers_wiring { scheme := "lru" }).2.2 (by decide)⟩

/-- C6: the factory defaults to process workers and threads are selectable:
with usethreads False, `_update_mq` sets the queue class to
`zmq.devices.ProcessMonitoredQueue` (also the trait default), and with
usethreads True it switches to `zmq.devices.ThreadMonitoredQueue`; for every
recognized Python scheme the task scheduler child is a multiprocessing
Process running `launch_scheduler`, independent of usethreads. -/
theorem c6_worker_isolation (f : ControllerFactory) :
    ((f.update_mq).mq_class
        = if f.usethreads then "zmq.devices.ThreadMonitoredQueue"
          else "zmq.devices.ProcessMonitoredQueue")
    ∧ ({} : ControllerFactory).usethreads = false
    ∧ ({} : ControllerFactory).mq_class = "zmq.devices.ProcessMonitoredQueue"
    ∧ (f.scheme ∈ pythonSchemes →
        f.construct_schedulers.getLast? = some (Child.schedulerProcess f.scheme)) := by
  refine ⟨?_, rfl, rfl, ?_⟩
  · cases hu : f.usethreads <;> simp [ControllerFactory.update_mq, hu]
  · intro h
    rw [construct_schedulers_python_scheme f h]
    exact List.getLast?_concat _

theorem c6_worker_isolation_witness :
    (({ usethreads := true } : ControllerFactory).update_mq).mq_class
        = "zmq.devices.ThreadMonitoredQueue"
    ∧ ({ scheme := "lru", usethreads := true } : ControllerFactory).construct_schedulers.getLast?
        = some (Child.schedulerProcess "lru") := by
  refine ⟨?_, (c6_worker_isolation { scheme := "lru", usethreads := true }).2.2.2 (by decide)⟩
  have h := (c6_worker_isolation ({ usethreads := true } : ControllerFactory)).1
  simpa using h

/-- A default value of an argparse argument: an int default, a string
default, argparse's implicit `None` for arguments declared without one, or
the False default of a store_true flag. -/
inductive ArgDefault where
  | int (n : Int)
  | str (s : String)
  | pynone
  | storeTrueFalse
  deriving DecidableEq, Repr

/-- One argparse argument specification: its name, its default, and its
choices restriction, if any. -/
structure ArgSpec where
  name : String
  dflt : ArgDefault
  choices : Option (List String)
  deriving DecidableEq, Repr

/-- The arguments the controller module adds on top of the base argument set
(controller.py lines 56-86). -/
def controllerArgumentSpecs : List ArgSpec :=
  [⟨"--client", ArgDefault.int 0, none⟩,
   ⟨"--notice", ArgDefault.int 0, none⟩,
   ⟨"--hb", ArgDefault.pynone, none⟩,
   ⟨"--ping", ArgDefault.int 100, none⟩,
   ⟨"--monitor", ArgDefault.int 0, none⟩,
   ⟨"--mux", ArgDefault.pynone, none⟩,
   ⟨"--task", ArgDefault.pynone, none⟩,
   ⟨"--control", ArgDefault.pynone, none⟩,
   ⟨"--iopub", ArgDefault.pynone, none⟩,
   ⟨"--scheduler", ArgDefault.str "lru",
      some ["pure", "lru", "plainrandom", "weighted", "twobin", "leastload"]⟩,
   ⟨"--mongodb", ArgDefault.storeTrueFalse, none⟩,
   ⟨"--session", ArgDefault.pynone, none⟩]

/-- Look an argument up by name. -/
def findControllerArg (nm : String) : Option ArgSpec :=
  controllerArgumentSpecs.find? (fun a => a.name == nm)

/-- C7: the --ping argument, which sets the heartbeat period in milliseconds,
has default value 100 (controller.py lines 66-67). -/
theorem c7_ping_default_100 :
    findControllerArg "--ping" = some ⟨"--ping", ArgDefault.int 100, none⟩ := by
  rfl

/-! ## Task scheduler (modelled from the spec) -/

/-- Modelled from the spec: a load-balanced task as the scheduler sees it
(scheduler.py is not among the provided sources; spec sections 4.2 and 8
describe the dependency semantics): a request id plus its `after` set of
request ids that must complete first. -/
structure STask where
  msg_id : String
  after : List String
  deriving DecidableEq, Repr

/-- Modelled from the spec: the after-dependency test, "the task may only be
dispatched once every `after` id is in the completed set". -/
def after_satisfied (completed : List String) (t : STask) : Bool :=
  t.after.all (fun a => completed.contains a)

/-- Modelled from the spec: the scheduler's local view: the completed set it
has learned from the hub's completion feed, the queue of tasks whose
dependencies are unmet, and a log of dispatches, each recorded with the
completed set held at the moment of dispatch. -/
structure SchedState where
  completed : List String
  pendingQueue : List STask
  dispatched : List (STask × List String)
  deriving DecidableEq, Repr

/-- The scheduler's initial state. -/
def sched_init : SchedState :=
  { completed := [], pendingQueue := [], dispatched := [] }

/-- Modelled from the spec: after the completed set grows, every queued task
whose after-dependencies are now met is dispatched (logged with the current
completed set); the rest stay queued. -/
def dispatch_ready (s : SchedState) : SchedState :=
  { completed := s.completed,
    pendingQueue := s.pendingQueue.filter (fun t => !(after_satisfied s.completed t)),
    dispatched := s.dispatched
      ++ (s.pendingQueue.filter (after_satisfied s.completed)).map
           (fun t => (t, s.completed)) }

/-- Modelled from the spec: the scheduler's inputs: a client task submission,
or a completion notification from the hub's feed. -/
inductive SchedEvent where
  | submit (t : STask)
  | completionNote (m : String)
  deriving DecidableEq, Repr

/-- Modelled from the spec: one step of the scheduler loop. A submission is
dispatched at once when its after set is already met, otherwise queued; a
completion notification adds the id to the completed set and re-evaluates the
queue. -/
def sched_step (s : SchedState) (e : SchedEvent) : SchedState :=
  match e with
  | SchedEvent.submit t =>
      if after_satisfied s.completed t then
        { s with dispatched := s.dispatched ++ [(t, s.completed)] }
      else
        { s with pendingQueue := s.pendingQueue ++ [t] }
  | SchedEvent.completionNote m =>
      dispatch_ready { s with completed := s.completed ++ [m] }

/-- Run the scheduler over a whole event trace. -/
def sched_run (evs : List SchedEvent) : SchedState :=
  evs.foldl sched_step sched_init

/-- The dispatch-safety invariant: every logged dispatch carried an `after`
set fully contained in the completed set recorded at dispatch time. -/
def dispatchOk (s : SchedState) : Prop :=
  ∀ p ∈ s.dispatched, after_satisfied p.2 p.1 = true

theorem dispatchOk_step (s : SchedState) (e : SchedEvent) (hs : dispatchOk s) :
    dispatchOk (sched_step s e) := by
  cases e with
  | submit t =>
      by_cases h : after_satisfied s.completed t = true
      · intro p hp
        simp only [sched_step, h, if_pos, List.mem_append, List.mem_singleton] at hp
        rcases hp with hp | hp
        · exact hs p hp
        · subst hp
          exact h
      · intro p hp
        simp only [sched_step, h, if_neg, if_false] at hp
        exact hs p hp
  | completionNote m =>
      intro p hp
      simp only [sched_step, dispatch_ready, List.mem_append, List.mem_map,
        List.mem_filter] at hp
      rcases hp with hp | ⟨t, ⟨ht, hsat⟩, rfl⟩
      · exact hs p hp
      · exact hsat

theorem dispatchOk_foldl (evs : List SchedEvent) (s : SchedState) (hs : dispatchOk s) :
    dispatchOk (evs.foldl sched_step s) := by
  induction evs generalizing s with
  | nil => exact hs
  | cons e rest ih => exact ih (sched_step s e) (dispatchOk_step s e hs)

/-- C2: for every event trace and every task dispatched by the scheduler,
every request id in the task's `after` set is in the scheduler's completed
set recorded at the moment of dispatch: the scheduler never dispatches a task
before all its after-dependencies have reached completed state in its local
view. -/
theorem c2_after_before_dispatch (evs : List SchedEvent)
    (p : STask × List String) (hp : p ∈ (sched_run evs).dispatched) :
    ∀ a ∈ p.1.after, a ∈ p.2 := by
  have h := dispatchOk_foldl evs sched_init (by intro q hq; simp [sched_init] at hq) p hp
  intro a ha
  have h2 := List.all_eq_true.mp h a ha
  simpa using h2

/-- A two-event trace: a task with one after-dependency is submitted, then
that dependency completes and the task is dispatched. -/
def demoSchedEvents : List SchedEvent :=
  [SchedEvent.submit { msg_id := "t1", after := ["a"] }, SchedEvent.completionNote "a"]

theorem c2_after_before_dispatch_witness : ("a" : String) ∈ (["a"] : List String) :=
  c2_after_before_dispatch demoSchedEvents ({ msg_id := "t1", after := ["a"] }, ["a"])
    (by decide) "a" (by decide)

/-! ## Heart monitor (modelled from the spec) -/

/-- Modelled from the spec: one period of the heart monitor's computation
(heartmonitor.py is not among the provided sources; spec section 4.3 gives
the per-period formulas): from the previously alive set, the set of
identities whose echo arrived during the last period, and the newly seen
identities, it returns `alive_next = alive_prev ∩ responded ∪ newly_seen`
and `dead = alive_prev − responded`. -/
def heart_beat (alive_prev responded newly_seen : Finset String) :
    Finset String × Finset String :=
  ((alive_prev ∩ responded) ∪ newly_seen, alive_prev \ responded)

/-- C3: each period the dead set equals `alive_prev` minus `responded`
(an identity is marked dead iff it was alive and did not echo), and a single
missed beacon suffices: an alive identity that did not respond in one period
(and did not re-register) is dead and out of the next alive set. -/
theorem c3_single_missed_beacon (alive_prev responded newly_seen : Finset String) :
    (heart_beat alive_prev responded newly_seen).2 = alive_prev \ responded
    ∧ (∀ i, i ∈ (heart_beat alive_prev responded newly_seen).2
        ↔ i ∈ alive_prev ∧ i ∉ responded)
    ∧ (∀ i, i ∈ alive_prev → i ∉ responded → i ∉ newly_seen →
        i ∈ (heart_beat alive_prev responded newly_seen).2
        ∧ i ∉ (heart_beat alive_prev responded newly_seen).1) := by
  refine ⟨rfl, ?_, ?_⟩
  · intro i
    simp [heart_beat, Finset.mem_sdiff]
  · intro i hi hr hn
    constructor
    · simp [heart_beat, Finset.mem_sdiff, hi, hr]
    · simp [heart_beat, Finset.mem_union, Finset.mem_inter, hi, hr, hn]

theorem c3_single_missed_beacon_witness :
    ("e" : String) ∈ (heart_beat {"e"} ∅ ∅).2
    ∧ ("e" : String) ∉ (heart_beat {"e"} ∅ ∅).1 :=
  (c3_single_missed_beacon {"e"} ∅ ∅).2.2 "e" (Finset.mem_singleton_self "e")
    (Finset.not_mem_empty "e") (Finset.not_mem_empty "e")
